import Mathlib

/-!
Verification of the OSDU viewer core (token manager and record access client).

The Lean definitions below are a shallow embedding of `src/token_manager.py`
and the `OSDUService` class of `src/app.py`.  Stateful Python code is modelled
by explicit state passing in a small state-plus-exception monad `OSDU.M`; the
network and the token-cache file are part of the state (`OSDU.World`), with
the network modelled as a trace of prescribed responses consumed one per HTTP
request.  Every outgoing HTTP request, file access and `clear_cache` call is
recorded in an action log so that theorems can speak about I/O behaviour.
-/

namespace OSDU

/-! ## Python string helpers

Python's `sub in s`, `s.split(sub)`, `s.replace(sub, repl)` and `s[:n]` for a
nonempty separator `sub`, implemented by structural recursion over the
character list of the string so that they reduce inside the kernel. -/

/-- Boolean test that the first list is an initial segment of the second. -/
def leadsWith : List Char → List Char → Bool
  | [], _ => true
  | _ :: _, [] => false
  | a :: as, b :: bs => a == b && leadsWith as bs

/-- Locate the first occurrence of `sep` in a character list, returning the
characters before the occurrence and the characters after it. -/
def findSplit (sep : List Char) : List Char → Option (List Char × List Char)
  | [] => none
  | c :: cs =>
    if leadsWith sep (c :: cs) then some ([], (c :: cs).drop sep.length)
    else
      match findSplit sep cs with
      | some (pre, post) => some (c :: pre, post)
      | none => none

/-- Fuelled worker for `pySplit`; the fuel is the length of the input, which
bounds the number of occurrences of a nonempty separator. -/
def splitAll (sep : List Char) : Nat → List Char → List (List Char)
  | 0, l => [l]
  | fuel + 1, l =>
    match findSplit sep l with
    | none => [l]
    | some (pre, post) => pre :: splitAll sep fuel post

/-- Python `s.split(sep)` for a nonempty separator string. -/
def pySplit (s sep : String) : List String :=
  (splitAll sep.data s.data.length s.data).map String.mk

/-- Python `sep in s` for a nonempty `sep`. -/
def pyContains (s sep : String) : Bool :=
  (findSplit sep.data s.data).isSome

/-- Fuelled worker for `pyReplace`. -/
def replaceAll (sep repl : List Char) : Nat → List Char → List Char
  | 0, l => l
  | fuel + 1, l =>
    match findSplit sep l with
    | none => l
    | some (pre, post) => pre ++ repl ++ replaceAll sep repl fuel post

/-- Python `s.replace(sep, repl)` (all occurrences) for a nonempty `sep`. -/
def pyReplace (s sep repl : String) : String :=
  String.mk (replaceAll sep.data repl.data s.data.length s.data)

/-- Python `s[:n]` (strings index by characters in both languages). -/
def pyTake (s : String) (n : Nat) : String :=
  String.mk (s.data.take n)

/-- Python truthiness of an optional string: `None` and `""` are falsy. -/
def truthyOpt : Option String → Bool
  | some s => s ≠ ""
  | none => false

/-! ## Data model -/

/-- A record document returned by the external service.  The optional `error`
field models the presence of a top-level `"error"` key (the code tests
`result.get('error')` on such documents); `payload` abstracts the rest of the
record's JSON content. -/
structure Rec where
  error : Option String := none
  payload : Nat := 0
deriving Repr, DecidableEq

/-- A search-response JSON document: `{error?, results, ...}`.  `extra`
abstracts any further JSON content so that "returns the payload verbatim" is a
meaningful statement. -/
structure Payload where
  error : Option String := none
  results : List Rec := []
  extra : Nat := 0
deriving Repr, DecidableEq

/-- A batch-records JSON document: `{error?, records, ...}`. -/
structure RecordsDoc where
  error : Option String := none
  records : List Rec := []
  extra : Nat := 0
deriving Repr, DecidableEq

/-- The JSON body of a token-grant response. -/
structure TokenBody where
  access_token : Option String := none
  expires_in : Option Int := none
  refresh_token : Option String := none
deriving Repr, DecidableEq

/-- The parsed JSON body of an HTTP response, by shape. -/
inductive Body
  | tokenB (tb : TokenBody)
  | searchB (p : Payload)
  | recB (r : Rec)
  | recordsB (d : RecordsDoc)
deriving Repr, DecidableEq

/-- An HTTP response: status code, raw text, and parsed JSON body (`none`
models a body on which `response.json()` raises). -/
structure NetResp where
  status : Nat := 200
  text : String := ""
  body : Option Body := none
deriving Repr, DecidableEq

/-- One prescribed network event: either a response delivered to the next
HTTP request, or the request call itself raising (connection error etc.). -/
inductive NetEvent
  | resp (r : NetResp)
  | exn (msg : String)
deriving Repr, DecidableEq

/-- A Python exception.  `requests.exceptions.HTTPError` (raised only by
`raise_for_status`) carries the response it was raised for, mirroring the
`response` variable the handlers consult; every other exception is `other`
with its message (`str(e)`). -/
inductive PyExn
  | httpError (resp : NetResp) (msg : String)
  | other (msg : String)
deriving Repr, DecidableEq

/-- Python `str(e)` on an exception. -/
def PyExn.str : PyExn → String
  | .httpError _ m => m
  | .other m => m

/-- The JSON payload of a POST to the search endpoint.  `none` in an optional
field means the corresponding key is absent from the payload dict. -/
structure SearchPayload where
  kind : Option String := none
  query : Option String := none
  limit : Int := 50
  offset : Option Int := none
  returnedFields : Option (List String) := none
deriving Repr, DecidableEq

/-- Observable actions, recorded in the order they happen: each outgoing HTTP
request (with its payload), each token-cache file access, and each
`clear_cache()` call. -/
inductive Action
  | postSearch (p : SearchPayload)
  | getStorageRecord (id : String)
  | postStorageBatchV1 (ids : List String)
  | postStorageBatchV2 (ids : List String)
  | postToken (grant : String)
  | fileRead
  | fileWrite
  | fileDelete
  | clearCacheCall
deriving Repr, DecidableEq

/-- Predicate used for counting `clear_cache()` calls in a log. -/
def Action.isClearCache : Action → Bool
  | .clearCacheCall => true
  | _ => false

/-- Predicate used for counting outgoing search requests in a log. -/
def Action.isPostSearch : Action → Bool
  | .postSearch _ => true
  | _ => false

/-- The persisted token-cache file contents `{access_token, expiry, ...}`.
(A corrupt file behaves like an absent one in `_load_from_cache`; absence is
modelled by `none` at the `World` level.) -/
structure FileCache where
  access_token : Option String := none
  expiry : Int := 0
deriving Repr, DecidableEq

/-- The mutable in-memory state of a `TokenManager`. -/
structure TMState where
  cached_token : Option String := none
  token_expiry : Int := 0
  refresh_token : String := ""
deriving Repr, DecidableEq

/-- The immutable configuration a `TokenManager` keeps from its config dict. -/
structure TMConfig where
  token_endpoint : Option String := none
  client_id : Option String := none
  client_secret : Option String := none
  verify_ssl : Bool := false
deriving Repr, DecidableEq

/-- The raw configuration dict passed to `TokenManager.__init__` (a missing
key is `none`, matching `dict.get`). -/
structure RawConfig where
  OSDU_TOKEN_ENDPOINT : Option String := none
  OSDU_CLIENT_ID : Option String := none
  OSDU_CLIENT_SECRET : Option String := none
  OSDU_REFRESH_TOKEN : Option String := none
  OSDU_VERIFY_SSL : Option String := none
deriving Repr, DecidableEq

/-- The whole world a run threads: token-manager memory, the cache file, the
remaining prescribed network events, and the log of performed actions. -/
structure World where
  tm : TMState := {}
  file : Option FileCache := none
  net : List NetEvent := []
  log : List Action := []
deriving Repr, DecidableEq

/-- The return shape of `get_record_details`: `{error?, records, ...}`. -/
structure DetailResult where
  error : Option String := none
  records : List Rec := []
  extra : Nat := 0
deriving Repr, DecidableEq

/-- The `returned_fields` argument of a search: Python `None`, a string, or an
explicit list of field names. -/
inductive RFieldsArg
  | noneArg
  | strArg (s : String)
  | listArg (l : List String)
deriving Repr, DecidableEq

/-! ## The state-plus-exception monad -/

/-- Computations over `World` that may raise a Python exception.  Exceptions
do not roll back state changes, exactly as in Python. -/
def M (α : Type) : Type := World → Except PyExn α × World

/-- Monadic return. -/
def M.pure (a : α) : M α := fun w => (Except.ok a, w)

/-- Monadic bind; an exception short-circuits but keeps the state. -/
def M.bind (x : M α) (f : α → M β) : M β := fun w =>
  match x w with
  | (Except.ok a, w') => f a w'
  | (Except.error e, w') => (Except.error e, w')

instance : Monad M where
  pure := M.pure
  bind := M.bind

/-- Python `raise`. -/
def M.throw (e : PyExn) : M α := fun w => (Except.error e, w)

/-- Python `try`/`except` catching every exception of the body. -/
def M.tryCatch (x : M α) (handler : PyExn → M α) : M α := fun w =>
  match x w with
  | (Except.ok a, w') => (Except.ok a, w')
  | (Except.error e, w') => handler e w'

/-- Read the current world. -/
def M.getW : M World := fun w => (Except.ok w, w)

/-- Update the current world. -/
def M.modifyW (f : World → World) : M Unit := fun w => (Except.ok (), f w)

/-- Append an action to the log. -/
def logA (a : Action) : M Unit :=
  M.modifyW fun w => { w with log := w.log ++ [a] }

/-- Consume the next prescribed network event (an exhausted prescription
behaves like a connection failure). -/
def netCall : M NetEvent := fun w =>
  match w.net with
  | [] => (Except.ok (NetEvent.exn "connection error"), w)
  | e :: rest => (Except.ok e, { w with net := rest })

/-- One `requests.get`/`requests.post` call: log the request, consume the next
event, and either deliver the response or raise the prescribed (non-HTTPError)
exception. -/
def doRequest (a : Action) : M NetResp :=
  M.bind (logA a) fun _ =>
  M.bind netCall fun ev =>
  match ev with
  | .resp r => M.pure r
  | .exn m => M.throw (.other m)

/-- Model of `response.raise_for_status()`: raises `requests.exceptions.HTTPError` for
4xx/5xx status codes.  The message stands in for the library's formatted
text; no claim depends on its exact content. -/
def raiseForStatus (r : NetResp) : M Unit :=
  if 400 ≤ r.status ∧ r.status < 600 then
    M.throw (.httpError r ("HTTPError " ++ toString r.status))
  else M.pure ()

/-- Model of `response.json()` expected to be a search document. -/
def jsonSearch (r : NetResp) : M Payload :=
  match r.body with
  | some (.searchB p) => M.pure p
  | _ => M.throw (.other "invalid JSON in response body")

/-- Model of `response.json()` expected to be a token-grant document. -/
def jsonToken (r : NetResp) : M TokenBody :=
  match r.body with
  | some (.tokenB tb) => M.pure tb
  | _ => M.throw (.other "invalid JSON in response body")

/-- Model of `response.json()` expected to be a single record document. -/
def jsonRec (r : NetResp) : M Rec :=
  match r.body with
  | some (.recB rec) => M.pure rec
  | _ => M.throw (.other "invalid JSON in response body")

/-- Model of `response.json()` expected to be a batch-records document. -/
def jsonRecords (r : NetResp) : M RecordsDoc :=
  match r.body with
  | some (.recordsB d) => M.pure d
  | _ => M.throw (.other "invalid JSON in response body")

/-! ## Token manager (`src/token_manager.py`) -/

/-- Model of `TokenManager.__init__`: reads the config dict into immutable
configuration and fresh in-memory state.  It performs no validation and
cannot fail; the pre-existing cache file (part of `World`) is untouched. -/
def TokenManager.init (rc : RawConfig) : TMConfig × TMState :=
  ({ token_endpoint := rc.OSDU_TOKEN_ENDPOINT
     client_id := rc.OSDU_CLIENT_ID
     client_secret := rc.OSDU_CLIENT_SECRET
     verify_ssl := rc.OSDU_VERIFY_SSL.getD "False" == "True" },
   { cached_token := none, token_expiry := 0,
     refresh_token := rc.OSDU_REFRESH_TOKEN.getD "" })

/-- Model of `TokenManager._load_from_cache`: adopt the cache file's token and expiry
when the file exists (a corrupt file is modelled as an absent one). -/
def _load_from_cache : M Bool :=
  M.bind M.getW fun w =>
  match w.file with
  | some fc =>
      M.bind (logA .fileRead) fun _ =>
      M.bind (M.modifyW fun w' =>
        { w' with tm := { w'.tm with cached_token := fc.access_token,
                                     token_expiry := fc.expiry } }) fun _ =>
      M.pure true
  | none => M.pure false

/-- Model of `TokenManager._save_to_cache`: write the token record to the cache file
(write failures are logged, not raised; the model's write succeeds). -/
def _save_to_cache (token : String) (expiry : Int) : M Unit :=
  M.bind (logA .fileWrite) fun _ =>
  M.modifyW fun w => { w with file := some { access_token := some token, expiry := expiry } }

/-- Model of `TokenManager._process_token_response`: adopt and persist the granted
access token; `expires_in` defaults to 3600. -/
def _process_token_response (now : Int) (tb : TokenBody) : M String :=
  if truthyOpt tb.access_token then
    let t := tb.access_token.getD ""
    let expiresIn := tb.expires_in.getD 3600
    M.bind (M.modifyW fun w =>
      { w with tm := { w.tm with token_expiry := now + expiresIn, cached_token := some t } })
      fun _ =>
    M.bind (_save_to_cache t (now + expiresIn)) fun _ =>
    M.pure t
  else M.throw (.other "No access token in response")

/-- Model of `TokenManager._request_with_refresh_token`: POST the refresh-token grant;
non-200 raises; a returned `refresh_token` rotates the stored one. -/
def _request_with_refresh_token (now : Int) : M String :=
  M.bind (doRequest (.postToken "refresh_token")) fun r =>
  if r.status ≠ 200 then
    M.throw (.other ("Refresh token request failed: " ++ r.text))
  else
    M.bind (jsonToken r) fun tb =>
    M.bind (match tb.refresh_token with
            | some rt => M.modifyW fun w => { w with tm := { w.tm with refresh_token := rt } }
            | none => M.pure ()) fun _ =>
    _process_token_response now tb

/-- Model of `TokenManager._request_with_client_credentials`: POST the
client-credentials grant; non-200 raises. -/
def _request_with_client_credentials (now : Int) : M String :=
  M.bind (doRequest (.postToken "client_credentials")) fun r =>
  if r.status ≠ 200 then
    M.throw (.other ("Client credentials failed: " ++ r.text))
  else
    M.bind (jsonToken r) fun tb =>
    _process_token_response now tb

/-- Model of `TokenManager._request_new_token`: raise on missing configuration, else
try the refresh-token grant (when one is configured) and fall back to client
credentials on any refresh failure. -/
def _request_new_token (cfg : TMConfig) (now : Int) : M String :=
  if truthyOpt cfg.token_endpoint && truthyOpt cfg.client_id && truthyOpt cfg.client_secret then
    M.bind M.getW fun w =>
    if w.tm.refresh_token ≠ "" then
      M.tryCatch (_request_with_refresh_token now)
        (fun _ => _request_with_client_credentials now)
    else
      _request_with_client_credentials now
  else M.throw (.other "Missing required token configuration")

/-- Model of `TokenManager.get_token`: memory cache (5-minute safety margin), then
file cache, then a fresh grant.  The value can be Python `None` when a cache
file holds no `access_token` but a future expiry, hence `Option String`. -/
def get_token (cfg : TMConfig) (now : Int) : M (Option String) :=
  M.bind M.getW fun w =>
  if truthyOpt w.tm.cached_token && decide (now < w.tm.token_expiry - 300) then
    M.pure w.tm.cached_token
  else
    M.bind _load_from_cache fun loaded =>
    M.bind M.getW fun w2 =>
    if loaded && decide (now < w2.tm.token_expiry - 300) then
      M.pure w2.tm.cached_token
    else
      M.bind (_request_new_token cfg now) fun t =>
      M.pure (some t)

/-- Model of `TokenManager.clear_cache`: wipe the in-memory token and delete the cache
file when present.  The call itself is logged for counting. -/
def clear_cache : M Unit :=
  M.bind (logA .clearCacheCall) fun _ =>
  M.bind (M.modifyW fun w =>
    { w with tm := { w.tm with cached_token := none, token_expiry := 0 } }) fun _ =>
  M.bind M.getW fun w =>
  match w.file with
  | some _ =>
      M.bind (logA .fileDelete) fun _ =>
      M.modifyW fun w' => { w' with file := none }
  | none => M.pure ()

/-- Model of `TokenManager.is_token_valid`: pure predicate over in-memory state. -/
def is_token_valid (now : Int) (w : World) : Bool :=
  truthyOpt w.tm.cached_token && decide (now < w.tm.token_expiry - 300)

/-! ## Record access client (`OSDUService` in `src/app.py`) -/

/-- Model of `OSDUService.get_headers`: obtain a token and build the header set (only
the Authorization value matters to the model); any token failure is re-raised
as `Authentication failed: ...`. -/
def get_headers (cfg : TMConfig) (now : Int) : M String :=
  M.tryCatch
    (M.bind (get_token cfg now) fun t =>
     M.pure ("Bearer " ++ (match t with | some s => s | none => "None")))
    (fun e => M.throw (.other ("Authentication failed: " ++ e.str)))

/-- Resolution of the `returned_fields` argument in
`_try_search_with_kind` (`if returned_fields:` makes `None`, `""` and `[]`
leave the payload without a `returnedFields` key, as does `"all"`). -/
def resolveReturnedFields : RFieldsArg → Option (List String)
  | .noneArg => none
  | .strArg s =>
      if s = "" then none
      else if s = "basic" then some ["id", "kind", "data"]
      else if s = "all" then none
      else some ["id", "kind", "data." ++ s]
  | .listArg l => if l = [] then none else some l

/-- The payload `_try_search_with_kind` builds. -/
def mkKindPayload (kind : String) (limit offset : Int) (rf : RFieldsArg) : SearchPayload :=
  { kind := some kind, limit := min limit 1000, offset := some offset,
    returnedFields := resolveReturnedFields rf }

/-- The tail of `_try_search_with_kind`'s HTTPError handler: read the current
response's text for the error detail, evaluate the diagnostic logging — which
calls `self.get_headers()` again (app.py line 162), so a token failure here
propagates — and return the error-shaped dict. -/
def finishKindError (cfg : TMConfig) (now : Int) (rcur : NetResp) : M Payload :=
  let errorDetail := pyTake rcur.text 500
  M.bind (get_headers cfg now) fun _ =>
  M.pure { error := some ("API request failed: " ++ toString rcur.status ++ " - "
             ++ pyTake errorDetail 100),
           results := [] }

/-- The `except requests.exceptions.HTTPError` handler of
`_try_search_with_kind`: on a 401 first response, clear the token cache and
retry the same request once inside a bare `try`/`except: pass`; the `response`
variable is rebound only when the retry's POST itself returns. -/
def kindErrorHandler (cfg : TMConfig) (now : Int) (payload : SearchPayload) (r0 : NetResp) :
    M Payload :=
  if r0.status = 401 then
    M.bind clear_cache fun _ =>
    M.bind
      (M.tryCatch
        (M.bind (get_headers cfg now) fun _ =>
         M.bind (doRequest (.postSearch payload)) fun r2 =>
         M.tryCatch
           (M.bind (raiseForStatus r2) fun _ =>
            M.bind (jsonSearch r2) fun p =>
            M.pure (Sum.inl p))
           (fun _ => M.pure (Sum.inr r2)))
        (fun _ => M.pure (Sum.inr r0)))
      fun retry =>
    match retry with
    | Sum.inl p => M.pure p
    | Sum.inr rcur => finishKindError cfg now rcur
  else
    finishKindError cfg now r0

/-- Model of `OSDUService._try_search_with_kind`. -/
def _try_search_with_kind (cfg : TMConfig) (now : Int) (kind : String) (limit offset : Int)
    (rf : RFieldsArg) : M Payload :=
  let payload := mkKindPayload kind limit offset rf
  M.tryCatch
    (M.bind (get_headers cfg now) fun _ =>
     M.bind (doRequest (.postSearch payload)) fun r =>
     M.bind (raiseForStatus r) fun _ =>
     jsonSearch r)
    (fun e =>
      match e with
      | .httpError r0 _ => kindErrorHandler cfg now payload r0
      | .other m => M.pure { error := some m, results := [] })

/-- The payload `_try_search_with_query` builds. -/
def mkQueryPayload (q : String) (limit offset : Int) : SearchPayload :=
  { query := some q, limit := min limit 1000, offset := some offset,
    returnedFields := some ["id", "kind", "data"] }

/-- Model of `OSDUService._try_search_with_query`: free-text search with a hard-coded
`returnedFields` of `["id","kind","data"]` and no 401 retry. -/
def _try_search_with_query (cfg : TMConfig) (now : Int) (q : String) (limit offset : Int) :
    M Payload :=
  M.tryCatch
    (M.bind (get_headers cfg now) fun _ =>
     M.bind (doRequest (.postSearch (mkQueryPayload q limit offset))) fun r =>
     M.bind (raiseForStatus r) fun _ =>
     jsonSearch r)
    (fun e =>
      match e with
      | .httpError r0 _ =>
          M.pure { error := some ("Query search failed: " ++ toString r0.status ++ " - "
                     ++ pyTake (pyTake r0.text 200) 100), results := [] }
      | .other m => M.pure { error := some m, results := [] })

/-- The `entity_name` extraction in `search_records`:
`kind.split('--')[-1].split(':')[0] if '--' in kind else None`. -/
def entityNameOf (kind : String) : Option String :=
  if pyContains kind "--" then
    some ((pySplit ((pySplit kind "--").getLastD "") ":").headD "")
  else none

/-- Strategies 3 and 4 of `search_records` (both guarded by the truthiness of
`entity_name`); `result` is strategy 1's result, returned when the remaining
strategies fail or do not apply. -/
def strategies34 (cfg : TMConfig) (now : Int) (kind : String) (limit offset : Int)
    (result : Payload) : M Payload :=
  match entityNameOf kind with
  | some e =>
      if e ≠ "" then
        M.bind (_try_search_with_query cfg now ("*" ++ e ++ "*") limit offset)
          fun wildcard_result =>
        if truthyOpt wildcard_result.error = false then M.pure wildcard_result
        else
          M.bind (_try_search_with_query cfg now ("kind:*" ++ e ++ "*") limit offset)
            fun query_result =>
          if truthyOpt query_result.error = false then M.pure query_result
          else M.pure result
      else M.pure result
  | none => M.pure result

/-- Model of `OSDUService.search_records`: the four-strategy fallback ladder.  A
strategy result counts as a success when its `error` value is falsy;
exhaustion returns strategy 1's result. -/
def search_records (cfg : TMConfig) (now : Int) (kind : String) (limit offset : Int)
    (rf : RFieldsArg) (try_alternatives : Bool) : M Payload :=
  M.bind (_try_search_with_kind cfg now kind limit offset rf) fun result =>
  if truthyOpt result.error = false then M.pure result
  else if try_alternatives = false then M.pure result
  else if pyContains kind ":wks:" then
    M.bind (_try_search_with_kind cfg now (pyReplace kind ":wks:" ":ddms-wellbore:")
      limit offset rf) fun alt_result =>
    if truthyOpt alt_result.error = false then M.pure alt_result
    else strategies34 cfg now kind limit offset result
  else strategies34 cfg now kind limit offset result

/-- Model of `OSDUService._try_get_record_by_id`: GET the storage endpoint; every
exception becomes `{"error": str(e)}`. -/
def _try_get_record_by_id (cfg : TMConfig) (now : Int) (record_id : String) : M Rec :=
  M.tryCatch
    (M.bind (get_headers cfg now) fun _ =>
     M.bind (doRequest (.getStorageRecord record_id)) fun r =>
     M.bind (raiseForStatus r) fun _ =>
     jsonRec r)
    (fun e => M.pure { error := some e.str })

/-- Model of `OSDUService._try_batch_records_v1`: POST `{recordIds: [...]}`. -/
def _try_batch_records_v1 (cfg : TMConfig) (now : Int) (record_ids : List String) :
    M RecordsDoc :=
  M.tryCatch
    (M.bind (get_headers cfg now) fun _ =>
     M.bind (doRequest (.postStorageBatchV1 record_ids)) fun r =>
     M.bind (raiseForStatus r) fun _ =>
     jsonRecords r)
    (fun e => M.pure { error := some e.str, records := [] })

/-- Model of `OSDUService._try_batch_records_v2`: POST `{records: [...]}`. -/
def _try_batch_records_v2 (cfg : TMConfig) (now : Int) (record_ids : List String) :
    M RecordsDoc :=
  M.tryCatch
    (M.bind (get_headers cfg now) fun _ =>
     M.bind (doRequest (.postStorageBatchV2 record_ids)) fun r =>
     M.bind (raiseForStatus r) fun _ =>
     jsonRecords r)
    (fun e => M.pure { error := some e.str, records := [] })

/-- Model of `OSDUService._try_get_record_via_search`: free-text query `id:<record_id>`
with limit 1, `returnedFields ["*"]` and no `offset` key; a non-empty result
set yields its first record. -/
def _try_get_record_via_search (cfg : TMConfig) (now : Int) (record_id : String) : M Rec :=
  M.tryCatch
    (M.bind (get_headers cfg now) fun _ =>
     M.bind (doRequest (.postSearch { query := some ("id:" ++ record_id), limit := 1,
                                      returnedFields := some ["*"] })) fun r =>
     M.bind (raiseForStatus r) fun _ =>
     M.bind (jsonSearch r) fun result =>
     match result.results with
     | rec :: _ => M.pure rec
     | [] => M.pure { error := some "Record not found in search results" })
    (fun e => M.pure { error := some e.str })

/-- Model of `OSDUService.get_record_details`: the four-strategy detail ladder. -/
def get_record_details (cfg : TMConfig) (now : Int) (record_ids : List String) :
    M DetailResult :=
  match record_ids with
  | [] => M.pure { error := some "No record IDs provided", records := [] }
  | record_id :: _ =>
    M.bind (_try_get_record_by_id cfg now record_id) fun r1 =>
    if truthyOpt r1.error = false then M.pure { records := [r1] }
    else
      M.bind (_try_batch_records_v1 cfg now record_ids) fun r2 =>
      if truthyOpt r2.error = false then
        M.pure { error := r2.error, records := r2.records, extra := r2.extra }
      else
        M.bind (_try_batch_records_v2 cfg now record_ids) fun r3 =>
        if truthyOpt r3.error = false then
          M.pure { error := r3.error, records := r3.records, extra := r3.extra }
        else
          M.bind (_try_get_record_via_search cfg now record_id) fun r4 =>
          if truthyOpt r4.error = false then M.pure { records := [r4] }
          else M.pure { error := some "Could not retrieve record details", records := [] }

/-! ## Fixtures shared by the theorems -/

/-- A well-formed token-manager configuration. -/
def cfgOk : TMConfig :=
  { token_endpoint := some "https://idp.example/token", client_id := some "cid",
    client_secret := some "secret", verify_ssl := false }

/-- In-memory state holding a token that is valid at time 0 under the
300-second safety margin. -/
def tmOk : TMState := { cached_token := some "tok0", token_expiry := 10000, refresh_token := "" }

/-- A sample success payload. -/
def pOK : Payload := { results := [{ payload := 7 }] }

/-- Appending to a nonempty string yields a nonempty string. -/
lemma append_ne_empty (a b : String) (h : a.data ≠ []) : a ++ b ≠ "" := by
  intro hc
  apply h
  have h2 : (a ++ b).data = "".data := by rw [hc]
  simp [String.data_append] at h2
  exact h2.1

/-- A nonempty string stays truthy after appending. -/
lemma truthyOpt_append (a b : String) (h : a.data ≠ []) :
    truthyOpt (some (a ++ b)) = true := by
  simp [truthyOpt, append_ne_empty a b h]

/-! ## Claims -/

/-- C4: with an in-memory token present (truthy) and unexpired under the
300-second safety-margin rule, `get_token` returns exactly the cached token
and leaves the whole world — token-manager state, cache file, network trace
and action log — unchanged: no network or file I/O happens. -/
theorem C4_get_token_cached_no_io (cfg : TMConfig) (now : Int) (w : World) (t : String)
    (hmem : w.tm.cached_token = some t) (hne : t ≠ "")
    (hfresh : now < w.tm.token_expiry - 300) :
    get_token cfg now w = (Except.ok (some t), w) := by
  simp [get_token, M.bind, M.getW, M.pure, truthyOpt, hmem, hne, hfresh]

/-- C4 witness: a concrete world where the hypotheses hold. -/
theorem C4_witness :
    get_token cfgOk 0 { tm := tmOk } = (Except.ok (some "tok0"), { tm := tmOk }) :=
  C4_get_token_cached_no_io cfgOk 0 { tm := tmOk } "tok0" rfl (by decide) (by decide)

/-- C5: with a refresh token configured and no valid cache, when the
refresh-token grant fails — with a non-200 response (first conjunct) or with
the request call itself raising (second conjunct) — and the following
client-credentials grant succeeds, `get_token` returns the client-credentials
response's `access_token` and raises nothing; the new token is adopted and
persisted. -/
theorem C5_refresh_failure_falls_back (s : Nat) (t at2 rt m : String) (rest : List NetEvent)
    (hs : s ≠ 200) (hat : at2 ≠ "") (hrt : rt ≠ "") :
    (get_token cfgOk 0
      { tm := { cached_token := none, token_expiry := 0, refresh_token := rt },
        net := [.resp { status := s, text := t },
                .resp { status := 200,
                        body := some (.tokenB { access_token := some at2,
                                                expires_in := some 3600 }) }] ++ rest }
      = (Except.ok (some at2),
         { tm := { cached_token := some at2, token_expiry := 3600, refresh_token := rt },
           file := some { access_token := some at2, expiry := 3600 },
           net := rest,
           log := [.postToken "refresh_token", .postToken "client_credentials", .fileWrite] }))
    ∧ (get_token cfgOk 0
      { tm := { cached_token := none, token_expiry := 0, refresh_token := rt },
        net := [.exn m,
                .resp { status := 200,
                        body := some (.tokenB { access_token := some at2,
                                                expires_in := some 3600 }) }] ++ rest }
      = (Except.ok (some at2),
         { tm := { cached_token := some at2, token_expiry := 3600, refresh_token := rt },
           file := some { access_token := some at2, expiry := 3600 },
           net := rest,
           log := [.postToken "refresh_token", .postToken "client_credentials", .fileWrite] })) := by
  constructor <;>
    simp [get_token, _load_from_cache, _request_new_token, _request_with_refresh_token,
      _request_with_client_credentials, _process_token_response, _save_to_cache,
      doRequest, netCall, jsonToken, logA, M.bind, M.pure, M.getW, M.modifyW, M.throw,
      M.tryCatch, truthyOpt, cfgOk, hs, hat, hrt]

/-- C5 witness: refresh grant rejected with HTTP 400, client credentials
succeed with token `cc-token`. -/
theorem C5_witness :
    get_token cfgOk 0
      { tm := { cached_token := none, token_expiry := 0, refresh_token := "refresh0" },
        net := [.resp { status := 400, text := "bad refresh" },
                .resp { status := 200,
                        body := some (.tokenB { access_token := some "cc-token",
                                                expires_in := some 3600 }) }] }
      = (Except.ok (some "cc-token"),
         { tm := { cached_token := some "cc-token", token_expiry := 3600,
                   refresh_token := "refresh0" },
           file := some { access_token := some "cc-token", expiry := 3600 },
           net := [],
           log := [.postToken "refresh_token", .postToken "client_credentials",
                   .fileWrite] }) := by
  have h := (C5_refresh_failure_falls_back 400 "bad refresh" "cc-token" "refresh0" "x" []
    (by decide) (by decide) (by decide)).1
  simpa using h

/-- A config dict whose client secret is missing. -/
def rcBad : RawConfig :=
  { OSDU_TOKEN_ENDPOINT := some "https://idp", OSDU_CLIENT_ID := some "cid",
    OSDU_CLIENT_SECRET := none, OSDU_REFRESH_TOKEN := some "" }

/-- C6 counterexample: constructing a `TokenManager` from a config dict with
a missing client secret does not fail — `__init__` performs no validation —
and the resulting manager is usable: with a pre-existing valid cache file,
`get_token` on it succeeds and returns the cached token. -/
theorem C6_counterexample :
    TokenManager.init rcBad
      = ({ token_endpoint := some "https://idp", client_id := some "cid",
           client_secret := none, verify_ssl := false },
         { cached_token := none, token_expiry := 0, refresh_token := "" })
    ∧ get_token (TokenManager.init rcBad).1 0
        { tm := (TokenManager.init rcBad).2,
          file := some { access_token := some "cachedTok", expiry := 7200 } }
      = (Except.ok (some "cachedTok"),
         { tm := { cached_token := some "cachedTok", token_expiry := 7200,
                   refresh_token := "" },
           file := some { access_token := some "cachedTok", expiry := 7200 },
           net := [], log := [.fileRead] }) :=
  ⟨rfl, rfl⟩

/-- C6 amended: construction always succeeds; the missing-configuration
failure is deferred to token acquisition — with no usable in-memory token and
no cache file, `get_token` on a manager built from a config missing any of
endpoint, client id or client secret raises `Missing required token
configuration` without performing any network or file I/O. -/
theorem C6_missing_config_error_at_acquisition (rc : RawConfig) (now : Int)
    (net : List NetEvent)
    (h : (truthyOpt rc.OSDU_TOKEN_ENDPOINT && truthyOpt rc.OSDU_CLIENT_ID
          && truthyOpt rc.OSDU_CLIENT_SECRET) = false) :
    get_token (TokenManager.init rc).1 now
      { tm := (TokenManager.init rc).2, file := none, net := net }
      = (Except.error (.other "Missing required token configuration"),
         { tm := (TokenManager.init rc).2, file := none, net := net }) := by
  have h0 : truthyOpt (none : Option String) = false := rfl
  cases hte : truthyOpt rc.OSDU_TOKEN_ENDPOINT <;>
    cases hci : truthyOpt rc.OSDU_CLIENT_ID <;>
      cases hcs : truthyOpt rc.OSDU_CLIENT_SECRET <;>
        simp_all [get_token, _load_from_cache, _request_new_token, TokenManager.init,
          M.bind, M.pure, M.getW, M.modifyW, M.throw, h0]

/-- C6 witness for the amended theorem, at the concrete bad config. -/
theorem C6_witness :
    get_token (TokenManager.init rcBad).1 0
      { tm := (TokenManager.init rcBad).2, file := none, net := [] }
      = (Except.error (.other "Missing required token configuration"),
         { tm := (TokenManager.init rcBad).2, file := none, net := [] }) :=
  C6_missing_config_error_at_acquisition rcBad 0 [] (by decide)

/-- World for the C1 counterexample: strategy 1 fails with 500, the next
response — delivered to strategy 3's wildcard query attempt — is a 401, and a
200 success follows in the trace. -/
def w_C1 : World :=
  { tm := tmOk,
    net := [.resp { status := 500, text := "boom" },
            .resp { status := 401, text := "unauthorized" },
            .resp { status := 200, body := some (.searchB pOK) }] }

/-- C1 counterexample: in this run the ladder's strategy-3 attempt (the
wildcard free-text query) receives an HTTP 401, yet no `clear_cache()` call
happens at all and the wildcard request is sent exactly once — it is not
retried; the 200 next in the trace is consumed by strategy 4 instead.  This
refutes the claim that every ladder attempt reacts to a 401 with exactly one
cache invalidation and one retry of the same request. -/
theorem C1_counterexample :
    (search_records cfgOk 0 "osdu:test:master-data--Basin:*" 50 0 .noneArg true w_C1).1
        = Except.ok pOK
    ∧ ((search_records cfgOk 0 "osdu:test:master-data--Basin:*" 50 0 .noneArg true
          w_C1).2.log.countP Action.isClearCache) = 0
    ∧ ((search_records cfgOk 0 "osdu:test:master-data--Basin:*" 50 0 .noneArg true
          w_C1).2.log.countP
            (fun a => a == Action.postSearch (mkQueryPayload "*Basin*" 50 0))) = 1
    ∧ (search_records cfgOk 0 "osdu:test:master-data--Basin:*" 50 0 .noneArg true
          w_C1).2.net = [] :=
  ⟨rfl, rfl, rfl, rfl⟩

/-- C1 amended: the 401-invalidate-and-retry behaviour belongs to the
kind-based attempts only (`_try_search_with_kind`, used by strategies 1 and
2): a 401 there triggers exactly one `clear_cache()` and exactly one retry of
the same request with a freshly acquired token — a retry 200 returns the 200
payload verbatim (first conjunct), and a second 401 is terminal for the
attempt, producing the error result (second conjunct).  Query-based attempts
(`_try_search_with_query`, strategies 3 and 4) treat a 401 like any other
HTTP error: terminal error result, no `clear_cache`, no retry (third
conjunct). -/
theorem C1_kind_search_401_retry_once (kind q : String) (limit offset : Int) (rf : RFieldsArg)
    (p : Payload) (t1 t2 g : String) (rest : List NetEvent) (hg : g ≠ "") :
    (_try_search_with_kind cfgOk 0 kind limit offset rf
      { tm := tmOk,
        net := [.resp { status := 401, text := t1 },
                .resp { status := 200,
                        body := some (.tokenB { access_token := some g,
                                                expires_in := some 3600 }) },
                .resp { status := 200, body := some (.searchB p) }] ++ rest }
      = (Except.ok p,
         { tm := { cached_token := some g, token_expiry := 3600, refresh_token := "" },
           file := some { access_token := some g, expiry := 3600 },
           net := rest,
           log := [.postSearch (mkKindPayload kind limit offset rf), .clearCacheCall,
                   .postToken "client_credentials", .fileWrite,
                   .postSearch (mkKindPayload kind limit offset rf)] }))
    ∧ (_try_search_with_kind cfgOk 0 kind limit offset rf
      { tm := tmOk,
        net := [.resp { status := 401, text := t1 },
                .resp { status := 200,
                        body := some (.tokenB { access_token := some g,
                                                expires_in := some 3600 }) },
                .resp { status := 401, text := t2 }] ++ rest }
      = (Except.ok { error := some ("API request failed: " ++ toString (401 : Nat) ++ " - "
                       ++ pyTake (pyTake t2 500) 100), results := [] },
         { tm := { cached_token := some g, token_expiry := 3600, refresh_token := "" },
           file := some { access_token := some g, expiry := 3600 },
           net := rest,
           log := [.postSearch (mkKindPayload kind limit offset rf), .clearCacheCall,
                   .postToken "client_credentials", .fileWrite,
                   .postSearch (mkKindPayload kind limit offset rf)] }))
    ∧ (_try_search_with_query cfgOk 0 q limit offset
      { tm := tmOk, net := [.resp { status := 401, text := t1 }] ++ rest }
      = (Except.ok { error := some ("Query search failed: " ++ toString (401 : Nat) ++ " - "
                       ++ pyTake (pyTake t1 200) 100), results := [] },
         { tm := tmOk, net := rest,
           log := [.postSearch (mkQueryPayload q limit offset)] })) := by
  refine ⟨?_, ?_, ?_⟩ <;>
    simp [_try_search_with_kind, _try_search_with_query, kindErrorHandler, finishKindError,
      get_headers, get_token, _load_from_cache, _request_new_token,
      _request_with_client_credentials, _process_token_response, _save_to_cache, clear_cache,
      doRequest, netCall, raiseForStatus, jsonSearch, jsonToken, logA,
      M.bind, M.pure, M.getW, M.modifyW, M.throw, M.tryCatch, truthyOpt, cfgOk, tmOk, hg]

/-- C1 witness for the amended theorem at concrete inputs. -/
theorem C1_witness :
    _try_search_with_kind cfgOk 0 "osdu:wks:master-data--Basin:*" 50 0 .noneArg
      { tm := tmOk,
        net := [.resp { status := 401, text := "unauth" },
                .resp { status := 200,
                        body := some (.tokenB { access_token := some "tok1",
                                                expires_in := some 3600 }) },
                .resp { status := 200, body := some (.searchB pOK) }] }
      = (Except.ok pOK,
         { tm := { cached_token := some "tok1", token_expiry := 3600, refresh_token := "" },
           file := some { access_token := some "tok1", expiry := 3600 },
           net := [],
           log := [.postSearch (mkKindPayload "osdu:wks:master-data--Basin:*" 50 0 .noneArg),
                   .clearCacheCall, .postToken "client_credentials", .fileWrite,
                   .postSearch (mkKindPayload "osdu:wks:master-data--Basin:*" 50 0
                     .noneArg)] }) := by
  have h := (C1_kind_search_401_retry_once "osdu:wks:master-data--Basin:*" "*Basin*" 50 0
    .noneArg pOK "unauth" "x" "tok1" [] (by decide)).1
  simpa using h

/-- C2: when every strategy of the ladder fails (here: strategy 1 with 500,
strategy 2 with 404, strategies 3 and 4 with 403 and 503, each with arbitrary
response texts), `search_records` returns strategy 1's error result with its
message verbatim — built from strategy 1's status and response text — not the
error of the last strategy tried. -/
theorem C2_exhaustion_returns_primary_error (limit offset : Int) (rf : RFieldsArg)
    (t1 t2 t3 t4 : String) :
    search_records cfgOk 0 "osdu:wks:master-data--Basin:*" limit offset rf true
      { tm := tmOk,
        net := [.resp { status := 500, text := t1 }, .resp { status := 404, text := t2 },
                .resp { status := 403, text := t3 }, .resp { status := 503, text := t4 }] }
      = (Except.ok { error := some ("API request failed: " ++ toString (500 : Nat) ++ " - "
                       ++ pyTake (pyTake t1 500) 100), results := [] },
         { tm := tmOk, file := none, net := [],
           log := [.postSearch (mkKindPayload "osdu:wks:master-data--Basin:*" limit offset rf),
                   .postSearch (mkKindPayload "osdu:ddms-wellbore:master-data--Basin:*"
                     limit offset rf),
                   .postSearch (mkQueryPayload "*Basin*" limit offset),
                   .postSearch (mkQueryPayload "kind:*Basin*" limit offset)] }) := by
  have n1 := append_ne_empty (("API request failed: " ++ toString (500 : Nat)) ++ " - ")
    (pyTake (pyTake t1 500) 100) (by decide)
  have n2 := append_ne_empty (("API request failed: " ++ toString (404 : Nat)) ++ " - ")
    (pyTake (pyTake t2 500) 100) (by decide)
  have n3 := append_ne_empty (("Query search failed: " ++ toString (403 : Nat)) ++ " - ")
    (pyTake (pyTake t3 200) 100) (by decide)
  have n4 := append_ne_empty (("Query search failed: " ++ toString (503 : Nat)) ++ " - ")
    (pyTake (pyTake t4 200) 100) (by decide)
  have k1 : pyContains "osdu:wks:master-data--Basin:*" ":wks:" = true := rfl
  have k2 : pyReplace "osdu:wks:master-data--Basin:*" ":wks:" ":ddms-wellbore:"
      = "osdu:ddms-wellbore:master-data--Basin:*" := rfl
  have k3 : entityNameOf "osdu:wks:master-data--Basin:*" = some "Basin" := rfl
  simp [search_records, strategies34, _try_search_with_kind, _try_search_with_query,
    kindErrorHandler, finishKindError, get_headers, get_token, _load_from_cache,
    doRequest, netCall, raiseForStatus, jsonSearch, logA,
    M.bind, M.pure, M.getW, M.modifyW, M.throw, M.tryCatch, truthyOpt, cfgOk, tmOk,
    k1, k2, k3, n1, n2, n3, n4]

/-- World for the C3 failing input: a 401 on the search request, then the
token endpoint failing on both token re-acquisition attempts. -/
def w_C3 : World :=
  { tm := tmOk,
    net := [.resp { status := 401, text := "unauth" },
            .resp { status := 503, text := "idp down" },
            .resp { status := 503, text := "idp down" }] }

/-- C3: evaluation of the code at the failing input.  A search receives a
401; `clear_cache()` wipes the token; the retry's token acquisition fails
(caught by the bare `except: pass`); then the diagnostic logging inside the
HTTPError handler calls `self.get_headers()` again (app.py line 162), token
acquisition fails once more, and that exception escapes `search_records` —
the caller gets a raised exception, not the error-shaped dict the claim
promises. -/
theorem C3_search_records_can_raise :
    (search_records cfgOk 0 "osdu:wks:master-data--Basin:*" 50 0 .noneArg true w_C3).1
      = Except.error
          (.other "Authentication failed: Client credentials failed: idp down") :=
  rfl

/-- A world whose single network event answers the next search request with a
200 response carrying payload `p`. -/
def w200 (p : Payload) : World :=
  { tm := tmOk, net := [.resp { status := 200, body := some (.searchB p) }] }

/-- C7: every kind-based search sends exactly one request whose payload
clamps `limit` to `min limit 1000` and resolves `returnedFields` by
`resolveReturnedFields` (first conjunct), and the resolution rules are:
unset → key omitted (full `data` is returned); `"basic"` →
`["id","kind","data"]`; `"all"` → key omitted; a named field →
`["id","kind","data.<field>"]`; a nonempty explicit list → passed through
verbatim (an empty list or string is falsy in Python and behaves like
unset). -/
theorem C7_kind_payload_resolution (kind : String) (limit offset : Int) (rf : RFieldsArg)
    (p : Payload) :
    ((_try_search_with_kind cfgOk 0 kind limit offset rf (w200 p)).2.log
      = [.postSearch { kind := some kind, limit := min limit 1000, offset := some offset,
                       returnedFields := resolveReturnedFields rf }])
    ∧ resolveReturnedFields .noneArg = none
    ∧ resolveReturnedFields (.strArg "basic") = some ["id", "kind", "data"]
    ∧ resolveReturnedFields (.strArg "all") = none
    ∧ (∀ s : String, s ≠ "" → s ≠ "basic" → s ≠ "all" →
        resolveReturnedFields (.strArg s) = some ["id", "kind", "data." ++ s])
    ∧ (∀ l : List String, l ≠ [] → resolveReturnedFields (.listArg l) = some l) := by
  refine ⟨?_, rfl, rfl, rfl, ?_, ?_⟩
  · simp [_try_search_with_kind, mkKindPayload, get_headers, get_token, doRequest, netCall,
      raiseForStatus, jsonSearch, logA, M.bind, M.pure, M.getW, M.modifyW, M.throw,
      M.tryCatch, truthyOpt, cfgOk, tmOk, w200]
  · intro s h1 h2 h3
    simp [resolveReturnedFields, h1, h2, h3]
  · intro l hl
    simp [resolveReturnedFields, hl]

/-- C7 witness: the spec's example — limit 2000 is clamped to 1000 and
`"basic"` resolves to `["id","kind","data"]` — plus instances of the
named-field and explicit-list rules. -/
theorem C7_witness :
    ((_try_search_with_kind cfgOk 0 "osdu:wks:master-data--Basin:*" 2000 0 (.strArg "basic")
        (w200 pOK)).2.log
      = [.postSearch { kind := some "osdu:wks:master-data--Basin:*", limit := 1000,
                       offset := some 0, returnedFields := some ["id", "kind", "data"] }])
    ∧ resolveReturnedFields (.strArg "BasinName") = some ["id", "kind", "data.BasinName"]
    ∧ resolveReturnedFields (.listArg ["id", "kind"]) = some ["id", "kind"] := by
  have h := C7_kind_payload_resolution "osdu:wks:master-data--Basin:*" 2000 0
    (.strArg "basic") pOK
  refine ⟨?_, h.2.2.2.2.1 "BasinName" (by decide) (by decide) (by decide),
    h.2.2.2.2.2 ["id", "kind"] (by decide)⟩
  rw [h.1]
  rfl

/-- C8: when the direct fetch, batch v1 and batch v2 detail strategies all
fail (here with HTTP 404/404/405) and the strategy-4 search for
`id:<record_id>` returns a non-empty result set whose first match carries no
`error` key, `get_record_details` returns `{records: [<first match>]}` —
having sent exactly the four strategy requests, the last being the search
with query `id:<record_id>`, limit 1 and `returnedFields ["*"]`. -/
theorem C8_detail_falls_back_to_search (record_id : String) (r : Rec) (rs : List Rec)
    (t1 t2 t3 : String) (hr : r.error = none) :
    get_record_details cfgOk 0 [record_id]
      { tm := tmOk,
        net := [.resp { status := 404, text := t1 }, .resp { status := 404, text := t2 },
                .resp { status := 405, text := t3 },
                .resp { status := 200, body := some (.searchB { results := r :: rs }) }] }
      = (Except.ok { records := [r] },
         { tm := tmOk, file := none, net := [],
           log := [.getStorageRecord record_id, .postStorageBatchV1 [record_id],
                   .postStorageBatchV2 [record_id],
                   .postSearch { kind := none, query := some ("id:" ++ record_id), limit := 1,
                                 offset := none, returnedFields := some ["*"] }] }) := by
  have f1 : ("HTTPError " ++ toString (404 : Nat)) ≠ "" :=
    append_ne_empty "HTTPError " (toString (404 : Nat)) (by decide)
  have f2 : ("HTTPError " ++ toString (405 : Nat)) ≠ "" :=
    append_ne_empty "HTTPError " (toString (405 : Nat)) (by decide)
  simp [get_record_details, _try_get_record_by_id, _try_batch_records_v1,
    _try_batch_records_v2, _try_get_record_via_search, get_headers, get_token, doRequest,
    netCall, raiseForStatus, jsonRec, jsonRecords, jsonSearch, PyExn.str, logA,
    M.bind, M.pure, M.getW, M.modifyW, M.throw, M.tryCatch, truthyOpt, cfgOk, tmOk,
    f1, f2, hr]

/-- C8 witness at concrete inputs. -/
theorem C8_witness :
    get_record_details cfgOk 0 ["well:123"]
      { tm := tmOk,
        net := [.resp { status := 404, text := "nf" }, .resp { status := 404, text := "nf" },
                .resp { status := 405, text := "nf" },
                .resp { status := 200,
                        body := some (.searchB { results := [{ payload := 9 },
                                                             { payload := 10 }] }) }] }
      = (Except.ok { records := [{ payload := 9 }] },
         { tm := tmOk, file := none, net := [],
           log := [.getStorageRecord "well:123", .postStorageBatchV1 ["well:123"],
                   .postStorageBatchV2 ["well:123"],
                   .postSearch { kind := none, query := some "id:well:123", limit := 1,
                                 offset := none, returnedFields := some ["*"] }] }) := by
  have h := C8_detail_falls_back_to_search "well:123" { payload := 9 } [{ payload := 10 }]
    "nf" "nf" "nf" rfl
  simpa using h

/-- C9: whichever `returned_fields` argument the caller supplied, when the
ladder falls back to the free-text strategies 3 and 4, both outgoing query
requests carry `returnedFields = ["id","kind","data"]` — the caller's field
specification is not preserved across the fallback (here strategy 1 fails
with 500 and both query strategies run). -/
theorem C9_fallback_queries_fix_returned_fields (limit offset : Int) (rf : RFieldsArg)
    (t1 t2 t3 : String) :
    (search_records cfgOk 0 "osdu:test:master-data--Basin:*" limit offset rf true
      { tm := tmOk,
        net := [.resp { status := 500, text := t1 }, .resp { status := 500, text := t2 },
                .resp { status := 500, text := t3 }] }).2.log
      = [.postSearch (mkKindPayload "osdu:test:master-data--Basin:*" limit offset rf),
         .postSearch { kind := none, query := some "*Basin*", limit := min limit 1000,
                       offset := some offset, returnedFields := some ["id", "kind", "data"] },
         .postSearch { kind := none, query := some "kind:*Basin*", limit := min limit 1000,
                       offset := some offset,
                       returnedFields := some ["id", "kind", "data"] }] := by
  have n1 := append_ne_empty (("API request failed: " ++ toString (500 : Nat)) ++ " - ")
    (pyTake (pyTake t1 500) 100) (by decide)
  have n2 := append_ne_empty (("Query search failed: " ++ toString (500 : Nat)) ++ " - ")
    (pyTake (pyTake t2 200) 100) (by decide)
  have n3 := append_ne_empty (("Query search failed: " ++ toString (500 : Nat)) ++ " - ")
    (pyTake (pyTake t3 200) 100) (by decide)
  have k1 : pyContains "osdu:test:master-data--Basin:*" ":wks:" = false := rfl
  have k2 : entityNameOf "osdu:test:master-data--Basin:*" = some "Basin" := rfl
  simp [search_records, strategies34, _try_search_with_kind, _try_search_with_query,
    mkQueryPayload, kindErrorHandler, finishKindError, get_headers, get_token,
    _load_from_cache, doRequest, netCall, raiseForStatus, jsonSearch, logA,
    M.bind, M.pure, M.getW, M.modifyW, M.throw, M.tryCatch, truthyOpt, cfgOk, tmOk,
    k1, k2, n1, n2, n3]

/-- C10: for a kind string without the `--` separator, the free-text fallback
strategies 3 and 4 are never attempted.  First conjunct: no `:wks:` marker
either — only the one kind-based request goes out and strategy 1's error is
returned, with the rest of the network trace untouched.  Second conjunct:
with a `:wks:` marker, exactly the two kind-based requests (primary and
domain-substituted) go out, and strategy 1's error is still returned. -/
theorem C10_no_separator_skips_query_strategies (kind kindw : String) (limit offset : Int)
    (rf : RFieldsArg) (t1 t2 : String) (rest : List NetEvent)
    (h1 : pyContains kind "--" = false) (h2 : pyContains kind ":wks:" = false)
    (h3 : pyContains kindw "--" = false) (h4 : pyContains kindw ":wks:" = true) :
    (search_records cfgOk 0 kind limit offset rf true
      { tm := tmOk, net := [.resp { status := 500, text := t1 }] ++ rest }
      = (Except.ok { error := some ("API request failed: " ++ toString (500 : Nat) ++ " - "
                       ++ pyTake (pyTake t1 500) 100), results := [] },
         { tm := tmOk, file := none, net := rest,
           log := [.postSearch (mkKindPayload kind limit offset rf)] }))
    ∧ (search_records cfgOk 0 kindw limit offset rf true
      { tm := tmOk,
        net := [.resp { status := 500, text := t1 },
                .resp { status := 500, text := t2 }] ++ rest }
      = (Except.ok { error := some ("API request failed: " ++ toString (500 : Nat) ++ " - "
                       ++ pyTake (pyTake t1 500) 100), results := [] },
         { tm := tmOk, file := none, net := rest,
           log := [.postSearch (mkKindPayload kindw limit offset rf),
                   .postSearch (mkKindPayload (pyReplace kindw ":wks:" ":ddms-wellbore:")
                     limit offset rf)] })) := by
  have n1 := append_ne_empty (("API request failed: " ++ toString (500 : Nat)) ++ " - ")
    (pyTake (pyTake t1 500) 100) (by decide)
  have n2 := append_ne_empty (("API request failed: " ++ toString (500 : Nat)) ++ " - ")
    (pyTake (pyTake t2 500) 100) (by decide)
  refine ⟨?_, ?_⟩ <;>
    simp [search_records, strategies34, entityNameOf, _try_search_with_kind,
      kindErrorHandler, finishKindError, get_headers, get_token, _load_from_cache,
      doRequest, netCall, raiseForStatus, jsonSearch, logA,
      M.bind, M.pure, M.getW, M.modifyW, M.throw, M.tryCatch, truthyOpt, cfgOk, tmOk,
      h1, h2, h3, h4, n1, n2]

/-- C10 witness at concrete kinds without the `--` separator. -/
theorem C10_witness :
    search_records cfgOk 0 "osdu:test:master:Basin:*" 50 0 .noneArg true
      { tm := tmOk, net := [.resp { status := 500, text := "e1" }] ++ [] }
      = (Except.ok { error := some ("API request failed: " ++ toString (500 : Nat) ++ " - "
                       ++ pyTake (pyTake "e1" 500) 100), results := [] },
         { tm := tmOk, file := none, net := [],
           log := [.postSearch (mkKindPayload "osdu:test:master:Basin:*" 50 0 .noneArg)] }) :=
  (C10_no_separator_skips_query_strategies "osdu:test:master:Basin:*"
    "osdu:wks:reference-data:Unit:*" 50 0 .noneArg "e1" "e2" [] rfl rfl rfl rfl).1

end OSDU
